import Mathlib

/-!
Verification development for the PropScraper ingestion pipeline.

Shallow embedding of the core pipeline of the repository:
- the Zonaprop normalizer and pagination loop
  (propscrape/connectors/zonaprop.py, ZonapropConnector.fetch_listings),
- the unified listing model and its pydantic validators
  (propscrape/core/models.py, UnifiedListing),
- the zone/operation catalog (propscrape/core/zones_config.py),
- the ingestion service (propscrape/services/ingestion.py, MultiZoneScraper),
- the broken MercadoLibre connector (propscrape/connectors/mercadolibre.py).

Python conventions used throughout the embedding:
- JSON numbers and Python floats are modelled as Rat (no rounding is relevant
  to any property proved here);
- a Python value that may be absent is an Option;
- Python truthiness of strings (empty string is falsy) and of numbers
  (zero is falsy) is modelled explicitly at each use site;
- a raised-and-caught exception is an Except error or an Option none,
  as noted at each definition;
- wall-clock reads (datetime.now, datetime.utcnow) are supplied as explicit
  tick parameters, since no proved property depends on real time.
-/

/-! ## Python string/number helpers -/

/-- Python str.isdigit for the ASCII strings handled by the scraper:
true iff the string is non-empty and all characters are decimal digits. -/
def pyIsDigit (s : String) : Bool :=
  !s.isEmpty && s.toList.all Char.isDigit

/-- Numeric value of a list of decimal digit characters (most significant first). -/
def digitsVal (l : List Char) : Nat :=
  l.foldl (fun a c => a * 10 + (c.toNat - 48)) 0

/-- Python s.replace(".", ""): with an empty replacement and a single-char
pattern, replace deletes every dot. -/
def pyReplaceDot (s : String) : String :=
  String.mk (s.toList.filter (fun c => c != '.'))

/-- Python s.split("."): split a character list at every dot (adjacent and
border dots produce empty pieces, as in Python). -/
def splitDots : List Char → List (List Char)
  | [] => [[]]
  | c :: cs =>
    let r := splitDots cs
    if c = '.' then [] :: r
    else
      match r with
      | [] => [[c]]
      | h :: t => (c :: h) :: t

/-- Python float() restricted to the strings that can reach it in
get_feature_value: strings of digits and dots (the digit guard has already
passed on the dot-free form). float() succeeds iff there is at most one dot;
two or more dots raise ValueError, modelled as none. -/
def pyFloatDigitsDot (s : String) : Option Rat :=
  match splitDots s.toList with
  | [ip] =>
    if ip.all Char.isDigit && !ip.isEmpty then
      some ((digitsVal ip : Nat) : Rat)
    else none
  | [ip, fp] =>
    if (ip ++ fp).all Char.isDigit && !(ip.isEmpty && fp.isEmpty) then
      some ((digitsVal ip : Rat) + (digitsVal fp : Rat) / ((10 : Rat) ^ fp.length))
    else none
  | _ => none

/-- Python `a or b` where a is an optional string and b a string:
returns a's value when it is truthy (present and non-empty), else b. -/
def pyOrString (a : Option String) (b : String) : String :=
  match a with
  | some s => if s.isEmpty then b else s
  | none => b

/-- Python `a or b` on two optional strings: a if truthy, else b as-is. -/
def pyOrOpt (a b : Option String) : Option String :=
  match a with
  | some s => if s.isEmpty then b else some s
  | none => b

/-- Substring containment, modelling Python's `sub in s` for non-empty sub. -/
def strContains (s sub : String) : Bool :=
  (s.splitOn sub).length ≥ 2

/-! ## Datetimes

Only the success/failure of parsing and the provenance of a datetime value are
observable in any property below, so datetimes are modelled as tagged values. -/

/-- A Python datetime as the pipeline handles it: either a wall-clock read
(datetime.now/utcnow at some tick) or a value parsed from an ISO string. -/
inductive PyDateTime
  | utcNow (tick : Nat)
  | iso (s : String)
deriving DecidableEq, Repr

/-- Shape check for the optional UTC-offset suffix ±HH:MM. -/
def offsetShapeOk (cs : List Char) : Bool :=
  match cs with
  | [] => true
  | sign :: h1 :: h2 :: ':' :: m1 :: m2 :: [] =>
    (sign = '+' || sign = '-') && [h1, h2, m1, m2].all Char.isDigit
  | _ => false

/-- Shape check for YYYY-MM-DDTHH:MM:SS with optional ±HH:MM offset, an
abstraction of CPython datetime.fromisoformat adequate here because no proved
property depends on timestamp values. -/
def isoShapeOk (cs : List Char) : Bool :=
  match cs with
  | y1 :: y2 :: y3 :: y4 :: '-' :: m1 :: m2 :: '-' :: d1 :: d2 :: 'T' ::
      h1 :: h2 :: ':' :: n1 :: n2 :: ':' :: s1 :: s2 :: rest =>
    [y1, y2, y3, y4, m1, m2, d1, d2, h1, h2, n1, n2, s1, s2].all Char.isDigit
      && offsetShapeOk rest
  | _ => false

/-- Models the modified_date handling in the normalizer: the two .replace
calls that rewrite the offsets -0500 and -0300 to -05:00 and -03:00, then
datetime.fromisoformat inside a try/except (failure modelled as none). -/
def pyFromIsoFormat (s : String) : Option PyDateTime :=
  let s' := (s.replace "-0500" "-05:00").replace "-0300" "-03:00"
  if isoShapeOk s'.toList then some (.iso s') else none

/-! ## Unified listing model (propscrape/core/models.py, UnifiedListing) -/

/-- The canonical listing record, field for field as the pydantic model
UnifiedListing declares it. Literal-typed fields are strings whose membership
in the allowed set is enforced by validListing (pydantic's Literal check). -/
structure UnifiedListing where
  platform : String
  platform_listing_id : String
  listing_url : String
  operation_type : String
  property_type : String
  currency : String
  status : String := "active"
  price : Option Rat := none
  expenses : Option Rat := none
  expenses_currency : Option String := none
  address_text : Option String := none
  geo_lat : Option Rat := none
  geo_lng : Option Rat := none
  surface_total : Option Rat := none
  surface_covered : Option Rat := none
  rooms : Option Int := none
  bedrooms : Option Int := none
  bathrooms : Option Int := none
  title : Option String := none
  description : Option String := none
  images : List String := []
  agent_publisher : Option String := none
  source_created_at : Option PyDateTime := none
  source_updated_at : Option PyDateTime := none
deriving DecidableEq, Repr

/-- The pydantic validation of UnifiedListing: Literal membership for the
enumerated fields, the non-negativity field validators (validate_non_negative,
validate_count), the ge/le bounds on coordinates, and the coordinate model
validator validate_coordinates (both coordinates present or both absent). -/
def validListing (L : UnifiedListing) : Bool :=
  ["zonaprop", "mercadolibre", "properati", "argenprop"].contains L.platform
    && ["sale", "rent"].contains L.operation_type
    && ["ARS", "USD", "EUR"].contains L.currency
    && ["active", "delisted", "paused", "sold", "rented"].contains L.status
    && (match L.expenses_currency with
        | none => true
        | some c => ["ARS", "USD", "EUR"].contains c)
    && L.price.all (fun q => decide (0 ≤ q))
    && L.expenses.all (fun q => decide (0 ≤ q))
    && L.geo_lat.all (fun q => decide (-90 ≤ q ∧ q ≤ 90))
    && L.geo_lng.all (fun q => decide (-180 ≤ q ∧ q ≤ 180))
    && L.surface_total.all (fun q => decide (0 ≤ q))
    && L.surface_covered.all (fun q => decide (0 ≤ q))
    && L.rooms.all (fun n => decide (0 ≤ n))
    && L.bedrooms.all (fun n => decide (0 ≤ n))
    && L.bathrooms.all (fun n => decide (0 ≤ n))
    && (L.geo_lat.isNone == L.geo_lng.isNone)

/-- Pydantic model construction: the constructed record when every validator
passes, none when a validator raises (the raise is caught by the per-item
try/except of the normalizer loop). -/
def mkIfValid (L : UnifiedListing) : Option UnifiedListing :=
  if validListing L then some L else none

/-! ## Raw Zonaprop postings (the JSON shapes read by fetch_listings)

Each structure holds exactly the fields the normalizer reads. Where the
source chains .get defaults through nested dicts whose intermediate levels it
never otherwise inspects, the chain is collapsed into one Option field, as
noted per field; the collapsed model is observationally identical. -/

/-- One entry of posting mainFeatures: a dict read as .get("value"). The
value is kept as the string str(val) renders; absent means no value key
or a falsy (None) value. -/
structure Feat where
  value : Option String
deriving DecidableEq, Repr

/-- One entry of op_data prices: .get("amount", 0) and .get("currency", "USD"). -/
structure RawPrice where
  amount : Option Rat
  currency : Option String
deriving DecidableEq, Repr

/-- One entry of posting priceOperationTypes. operationTypeName collapses
op_data.get("operationType", {}).get("name", "Venta"): none means the default
"Venta" applies at either level. -/
structure RawOpType where
  operationTypeName : Option String
  prices : List RawPrice
deriving DecidableEq, Repr

/-- The geolocation dict: .get("latitude"), .get("longitude"). -/
structure RawGeo where
  latitude : Option Rat
  longitude : Option Rat
deriving DecidableEq, Repr

/-- posting postingLocation. addressName collapses
location_data.get("address", {}).get("name", ""); geolocation collapses
location_data.get("postingGeolocation", {}).get("geolocation", {}). -/
structure RawLocation where
  addressName : Option String
  geolocation : Option RawGeo
deriving DecidableEq, Repr

/-- One entry of visiblePictures.pictures. -/
structure RawPic where
  url730x532 : Option String
  url360x266 : Option String
deriving DecidableEq, Repr

/-- A raw posting as fetch_listings reads it. expensesAmount collapses
posting.get("expenses", {}) then .get("amount"): outer none means the
expenses dict is absent or falsy (empty). pictures collapses
posting.get("visiblePictures", {}).get("pictures", []). publisherName
collapses posting.get("publisher", {}) (falsy dict gives None) then
.get("name"). realEstateTypeName collapses posting.get("realEstateType", {})
(falsy gives "unknown") then .get("name", "unknown"). -/
structure RawPosting where
  postingId : Option String := none
  id : Option String := none
  url : Option String := none
  title : Option String := none
  descriptionNormalized : Option String := none
  description : Option String := none
  priceOperationTypes : List RawOpType := []
  expensesAmount : Option (Option Rat) := none
  postingLocation : Option RawLocation := none
  mainFeatures : List (String × Feat) := []
  pictures : List RawPic := []
  publisherName : Option String := none
  realEstateTypeName : Option String := none
  modified_date : Option String := none
deriving DecidableEq, Repr

/-! ## Feature extraction (fetch_listings, the get_feature_value closure) -/

/-- get_feature_value: look the key up in main_features (default empty dict),
read its value; if the value is truthy and its dot-free form passes isdigit,
call float() on it. A float() ValueError propagates to the per-item
try/except, modelled as Except.error. Otherwise the feature is None. -/
def get_feature_value (mainFeatures : List (String × Feat)) (key : String) :
    Except Unit (Option Rat) :=
  let feat := (mainFeatures.lookup key).getD ⟨none⟩
  match feat.value with
  | none => .ok none
  | some s =>
    if !s.isEmpty && pyIsDigit (pyReplaceDot s) then
      match pyFloatDigitsDot s with
      | some q => .ok (some q)
      | none => .error ()
    else .ok none

/-- Python `int(x) if x else None` on an optional float: zero is falsy, so a
parsed 0 yields None; int() truncates, which on the non-negative values
produced by get_feature_value equals the floor. -/
def pyIntIfTruthy (x : Option Rat) : Option Int :=
  match x with
  | some q => if q ≠ 0 then some q.floor else none
  | none => none

/-- The five feature fields as the normalizer computes them, looked up by the
Zonaprop feature codes: CFT100 total surface, CFT101 covered surface,
CFT1 rooms (ambientes), CFT2 bedrooms, CFT3 bathrooms. -/
def featureFields (mf : List (String × Feat)) :
    Except Unit (Option Rat × Option Rat × Option Int × Option Int × Option Int) := do
  let st ← get_feature_value mf "CFT100"
  let sc ← get_feature_value mf "CFT101"
  let rm ← get_feature_value mf "CFT1"
  let bd ← get_feature_value mf "CFT2"
  let ba ← get_feature_value mf "CFT3"
  pure (st, sc, pyIntIfTruthy rm, pyIntIfTruthy bd, pyIntIfTruthy ba)

/-! ## The coordinate fix and the normalizer proper -/

/-- Lines 362-365 of zonaprop.py: if exactly one coordinate is present,
null both before constructing the record. -/
def coordsFix (lat lng : Option Rat) : Option Rat × Option Rat :=
  if lat.isNone != lng.isNone then (none, none) else (lat, lng)

/-- The per-posting transformation of ZonapropConnector.fetch_listings
(lines 267-398): identity selection, URL absolutization, operation/price
extraction, expenses, location, features, images, publisher, property type,
timestamps, the coordinate fix, and pydantic construction. Returns none when
the posting is skipped: missing identity (continue), a feature float()
ValueError, or a pydantic validation error (both caught by the per-item
try/except). tick supplies datetime.now(timezone.utc). -/
def normalizePosting (tick : Nat) (p : RawPosting) : Option UnifiedListing :=
  let lid := pyOrString p.postingId (pyOrString p.id "")
  if lid.isEmpty then none
  else
    match featureFields p.mainFeatures with
    | .error _ => none
    | .ok (st, sc, rm, bd, ba) =>
      let url_path := p.url.getD ""
      let listing_url :=
        if url_path.startsWith "/" then "https://www.zonaprop.com.ar" ++ url_path
        else url_path
      let title := p.title.getD ""
      let description := pyOrString p.descriptionNormalized (p.description.getD "")
      let opPrice :=
        match p.priceOperationTypes with
        | [] => ("sale", (0 : Rat), "USD")
        | op :: _ =>
          let op_name := (op.operationTypeName.getD "Venta").toLower
          let ot := if strContains op_name "alquiler" then "rent" else "sale"
          match op.prices with
          | [] => (ot, (0 : Rat), "USD")
          | pr :: _ => (ot, pr.amount.getD 0, pr.currency.getD "USD")
      let expenses :=
        match p.expensesAmount with
        | some (some a) => if a ≠ 0 then some a else none
        | _ => none
      let address_text := (p.postingLocation.bind RawLocation.addressName).getD ""
      let geo_lat := (p.postingLocation.bind RawLocation.geolocation).bind RawGeo.latitude
      let geo_lng := (p.postingLocation.bind RawLocation.geolocation).bind RawGeo.longitude
      let images := p.pictures.filterMap (fun pic =>
        match pyOrOpt pic.url730x532 pic.url360x266 with
        | some u => if u.isEmpty then none else some u
        | none => none)
      let property_type := p.realEstateTypeName.getD "unknown"
      let source_updated_at := p.modified_date.bind pyFromIsoFormat
      let glatlng := coordsFix geo_lat geo_lng
      mkIfValid
        { platform := "zonaprop"
          platform_listing_id := lid
          listing_url := listing_url
          operation_type := opPrice.1
          property_type := property_type
          currency := opPrice.2.2
          price := some opPrice.2.1
          expenses := expenses
          status := "active"
          address_text := some address_text
          geo_lat := glatlng.1
          geo_lng := glatlng.2
          surface_total := st
          surface_covered := sc
          rooms := rm
          bedrooms := bd
          bathrooms := ba
          title := some title
          description := some description
          images := images
          agent_publisher := p.publisherName
          source_created_at := some (PyDateTime.utcNow tick)
          source_updated_at := source_updated_at }

/-! ## Pagination engine (ZonapropConnector.fetch_listings, lines 224-409) -/

/-- The paging metadata of an upstream response as has_next_page consumes it.
Of the paging dict only lastPage is read by the pagination loop (totalPages,
total and currentPage feed connector counters no claim observes); lastPage is
Option because the key may be absent from the dict. -/
structure Paging where
  lastPage : Option Bool
deriving DecidableEq, Repr

/-- One upstream JSON response: presence of the paging dict and presence and
content of the listPostings array. -/
structure ApiResponse where
  paging : Option Paging
  listPostings : Option (List RawPosting)
deriving DecidableEq, Repr

/-- The effective lastPage value of the connector's pagination_info:
self.pagination_info.get("lastPage", True), where an empty pagination_info
(no paging dict stored yet) also defaults to True. -/
def effLastPage : Option Paging → Bool
  | none => true
  | some pg => pg.lastPage.getD true

/-- ZonapropConnector.has_next_page: not pagination_info.get("lastPage", True). -/
def has_next_page (pinfo : Option Paging) : Bool :=
  !effLastPage pinfo

/-- The page-cap guard `if max_pages and pages_fetched >= max_pages`:
max_pages None and max_pages 0 are both falsy, disabling the cap. -/
def capReached (maxPages : Option Nat) (pagesFetched : Nat) : Bool :=
  match maxPages with
  | none => false
  | some k => if k = 0 then false else decide (k ≤ pagesFetched)

/-- The `while True` pagination loop of fetch_listings. pageFn is the upstream
(get_property at a fixed zone/operation filter): none models a request whose
exception get_property caught (it returns None). The loop yields the
normalized listings and the number of page requests issued. The loop has no
bound in the source; fuel only makes the recursion structural, and every
theorem below holds for every sufficient fuel. Returns none iff fuel ran out
before the loop stopped.

Per iteration, in source order: the cap guard (before any request); the
request; pagination_info update when the response carries a paging dict;
break on missing data or missing/empty listPostings; per-posting
normalization (skips are silent); the has_next_page check; page and
pages_fetched increments. -/
def fetchLoop (pageFn : Nat → Option ApiResponse) (maxPages : Option Nat) (tick : Nat) :
    Nat → Nat → Nat → Option Paging → Option (List UnifiedListing × Nat)
  | 0, _, _, _ => none
  | fuel + 1, page, pagesFetched, pinfo =>
    if capReached maxPages pagesFetched then
      some ([], 0)
    else
      match pageFn page with
      | none => some ([], 1)
      | some data =>
        let pinfo' :=
          match data.paging with
          | some pg => some pg
          | none => pinfo
        match data.listPostings with
        | none => some ([], 1)
        | some postings =>
          if postings.isEmpty then some ([], 1)
          else
            let ys := postings.filterMap (normalizePosting tick)
            if has_next_page pinfo' then
              match fetchLoop pageFn maxPages tick fuel (page + 1) (pagesFetched + 1) pinfo' with
              | none => none
              | some (rest, n) => some (ys ++ rest, n + 1)
            else some (ys, 1)

/-- ZonapropConnector.fetch_listings for a fixed filter: the pagination loop
started at page 1 with pages_fetched 0 and an empty pagination_info. -/
def fetch_listings (pageFn : Nat → Option ApiResponse) (maxPages : Option Nat)
    (tick fuel : Nat) : Option (List UnifiedListing × Nat) :=
  fetchLoop pageFn maxPages tick fuel 1 0 none

/-! ## Zone/operation catalog (propscrape/core/zones_config.py) -/

/-- One ZONES_CONFIG entry. -/
structure ZoneConfig where
  display_name : String
  province_code : String
  zone_code : Option String
  description : String
deriving DecidableEq, Repr

/-- One OPERATION_TYPES entry. -/
structure OperationConfig where
  code : String
  display_name : String
deriving DecidableEq, Repr

/-- ZONES_CONFIG, entry for entry. -/
def ZONES_CONFIG : List (String × ZoneConfig) :=
  [("capital_federal", ⟨"Capital Federal", "6", none, "Ciudad Autónoma de Buenos Aires"⟩),
   ("zona_norte_gba", ⟨"Zona Norte GBA", "990", none, "Zona Norte del Gran Buenos Aires"⟩),
   ("santa_fe", ⟨"Santa Fe", "25", none, "Provincia de Santa Fe"⟩),
   ("cordoba", ⟨"Córdoba", "7", none, "Provincia de Córdoba"⟩),
   ("mendoza", ⟨"Mendoza", "17", none, "Provincia de Mendoza"⟩),
   ("entre_rios", ⟨"Entre Ríos", "12", none, "Provincia de Entre Ríos"⟩)]

/-- OPERATION_TYPES. -/
def OPERATION_TYPES : List (String × OperationConfig) :=
  [("sale", ⟨"1", "Venta"⟩), ("rent", ⟨"2", "Alquiler"⟩)]

/-- ZONES_TO_SCRAPE: all zone keys. -/
def ZONES_TO_SCRAPE : List String := ZONES_CONFIG.map Prod.fst

/-- OPERATIONS_TO_SCRAPE: all operation keys. -/
def OPERATIONS_TO_SCRAPE : List String := OPERATION_TYPES.map Prod.fst

/-- An upstream as fetch_listings_for_zone parameterizes it: get_property as
a function of province code, operation code, zone code and page number. -/
abbrev Upstream := String → String → Option String → Nat → Option ApiResponse

/-- ZonapropConnector.fetch_listings_for_zone: resolve the zone and operation
keys against the catalog (an unknown key yields nothing) and run
fetch_listings with the resolved provider codes. -/
def fetch_listings_for_zone (upstream : Upstream) (tick fuel : Nat)
    (zone_key operation_key : String) (maxPages : Option Nat) :
    Option (List UnifiedListing × Nat) :=
  match ZONES_CONFIG.lookup zone_key, OPERATION_TYPES.lookup operation_key with
  | some zc, some oc =>
    fetch_listings (upstream zc.province_code oc.code zc.zone_code) maxPages tick fuel
  | _, _ => some ([], 0)

/-! ## Sink (MultiZoneScraper.save_listing_to_db, ingestion.py lines 46-62) -/

/-- One row of the listings_current table: every UnifiedListing field plus
the ingested_at stamp the Sink writes. The row key (the id column) is held
beside the record in the store. -/
structure StoredRecord where
  listing : UnifiedListing
  ingested_at : Nat
deriving DecidableEq, Repr

/-- The listings_current table: rows keyed by the id primary-key column. -/
abbrev Store := List (String × StoredRecord)

/-- The natural key the Sink computes: platform + "_" + platform_listing_id. -/
def naturalKey (l : UnifiedListing) : String :=
  l.platform ++ "_" ++ l.platform_listing_id

/-- session.merge followed by commit on a table keyed by id: update the row
with this primary key if present, else insert a new row. -/
def upsertByKey : Store → String → StoredRecord → Store
  | [], k, r => [(k, r)]
  | (k', r') :: t, k, r =>
    if k' = k then (k, r) :: t else (k', r') :: upsertByKey t k r

/-- MultiZoneScraper.save_listing_to_db: build the row from the listing, set
ingested_at to now, merge by the natural key, commit; on a storage-layer
exception (injected here as dbFail) the handler logs, rolls the session back
(store unchanged) and returns False. It never raises. -/
def save_listing_to_db (dbFail : Bool) (now : Nat) (l : UnifiedListing) (s : Store) :
    Bool × Store :=
  if dbFail then (false, s)
  else (true, upsertByKey s (naturalKey l) ⟨l, now⟩)

/-! ## Ingestion service (MultiZoneScraper, ingestion.py) -/

/-- The self.stats dict of MultiZoneScraper (start_time and end_time are
wall-clock values no claim observes and are omitted). -/
structure RunStats where
  total_listings : Nat
  total_zones_processed : Nat
  total_operations_processed : Nat
  errors : Nat
deriving DecidableEq, Repr

/-- The stats dict as __init__ creates it. -/
def initStats : RunStats := ⟨0, 0, 0, 0⟩

/-- The per-listing loop of scrape_zone_operation (lines 95-108): for each
yielded listing, optionally save it (the save's boolean result is ignored and
save_listing_to_db never raises, so the surrounding per-listing except never
fires), then increment listings_count. failOn injects a storage failure for
the listing at the given zero-based position within the combination. Returns
(listings_count, store, stats). -/
def processListings (failOn : Nat → Bool) (now : Nat) (saveToDb : Bool) :
    List UnifiedListing → Nat → Store → RunStats → Nat × Store × RunStats
  | [], count, store, stats => (count, store, stats)
  | l :: rest, count, store, stats =>
    let store' := if saveToDb then (save_listing_to_db (failOn count) now l store).2 else store
    processListings failOn now saveToDb rest (count + 1) store' stats

/-- MultiZoneScraper.scrape_zone_operation: resolve the combination's configs
(an unknown key logs and returns 0 with stats untouched), drain the
connector, then add listings_count to total_listings and bump
total_operations_processed. Returns none only when fetchLoop fuel ran out. -/
def scrape_zone_operation (upstream : Upstream) (failOn : Nat → Bool)
    (now tick fuel : Nat) (zone_key operation_key : String)
    (maxPages : Option Nat) (saveToDb : Bool) (store : Store) (stats : RunStats) :
    Option (Nat × Store × RunStats) :=
  match ZONES_CONFIG.lookup zone_key, OPERATION_TYPES.lookup operation_key with
  | some _, some _ =>
    match fetch_listings_for_zone upstream tick fuel zone_key operation_key maxPages with
    | none => none
    | some (ls, _) =>
      let r := processListings failOn now saveToDb ls 0 store stats
      some (r.1, r.2.1,
        { r.2.2 with
          total_listings := r.2.2.total_listings + r.1
          total_operations_processed := r.2.2.total_operations_processed + 1 })
  | _, _ => some (0, store, stats)

/-- The zone-by-operation loop of scrape_all_zones_operations (lines 152-165):
each combination runs scrape_zone_operation and then bumps
total_zones_processed. -/
def scrapeCombos (upstream : Upstream) (failOn : Nat → Bool) (now tick fuel : Nat)
    (maxPages : Option Nat) (saveToDb : Bool) :
    List (String × String) → Store → RunStats → Option (Store × RunStats)
  | [], store, stats => some (store, stats)
  | (z, o) :: rest, store, stats =>
    match scrape_zone_operation upstream failOn now tick fuel z o maxPages saveToDb store stats with
    | none => none
    | some (_, store', stats') =>
      scrapeCombos upstream failOn now tick fuel maxPages saveToDb rest store'
        { stats' with total_zones_processed := stats'.total_zones_processed + 1 }

/-- MultiZoneScraper.scrape_all_zones_operations: default empty (falsy) zone
and operation selections to the full catalog, then drive the Cartesian
product in nested-loop order and return the final stats (alongside the
store). -/
def scrape_all_zones_operations (upstream : Upstream) (failOn : Nat → Bool)
    (now tick fuel : Nat) (zones operations : List String)
    (maxPages : Option Nat) (saveToDb : Bool) (store : Store) (stats : RunStats) :
    Option (Store × RunStats) :=
  let zones := if zones.isEmpty then ZONES_TO_SCRAPE else zones
  let operations := if operations.isEmpty then OPERATIONS_TO_SCRAPE else operations
  scrapeCombos upstream failOn now tick fuel maxPages saveToDb
    ((zones.map (fun z => operations.map (fun o => (z, o)))).flatten) store stats

/-! ## MercadoLibre connector (propscrape/connectors/mercadolibre.py) -/

/-- A Python exception as the MercadoLibre connector can raise it. -/
inductive PyExc
  | nameError (n : String)
deriving DecidableEq, Repr

/-- The names visible in the body of MercadoLibreConnector.fetch_listings:
its only parameter self, the module-level imports of mercadolibre.py, and the
class itself. The name limit is bound nowhere. -/
def mercadolibreScope : List String :=
  ["self", "time", "random", "Generator", "datetime", "timezone",
   "UnifiedListing", "BaseConnector", "MercadoLibreConnector"]

/-- Python name resolution against a scope: an unbound name raises NameError. -/
def evalName (scope : List String) (n : String) : Except PyExc Unit :=
  if scope.contains n then .ok () else .error (.nameError n)

/-- The first statement the generator body of
MercadoLibreConnector.fetch_listings executes when its first element is
requested: the print of the f-string interpolating limit, which resolves the
name limit. Everything after it (the for loop over range(limit)) is
unreachable when this raises. -/
def mercadolibreFetchFirstStatement : Except PyExc Unit :=
  evalName mercadolibreScope "limit"

/-! ## Predicates and concrete inputs used by the statements below -/

/-- A mid-pagination upstream response: present, with a paging dict whose
lastPage is false, and a non-empty listPostings array. -/
def goodMid (o : Option ApiResponse) : Bool :=
  match o with
  | some r =>
    (match r.listPostings with
     | some ps => !ps.isEmpty
     | none => false)
      && (match r.paging with
          | some pg => pg.lastPage == some false
          | none => false)
  | none => false

/-- A final upstream response: present, with a listPostings array and a
paging dict whose lastPage is true. -/
def lastGood (o : Option ApiResponse) : Bool :=
  match o with
  | some r =>
    r.listPostings.isSome
      && (match r.paging with
          | some pg => pg.lastPage == some true
          | none => false)
  | none => false

/-- Number of rows of the store holding the given id key. -/
def countKey (k : String) (s : Store) : Nat :=
  s.countP (fun p => p.1 == k)

/-- A store with at most one row per id key, as the primary-key column of
listings_current guarantees for every reachable database state. -/
def KeyUnique (s : Store) : Prop :=
  ∀ k, countKey k s ≤ 1

/-- A minimal raw posting carrying only an identity. -/
def demoPosting (i : String) : RawPosting := { postingId := some i }

/-- A raw posting with no identity field at all. -/
def demoNoIdPosting : RawPosting := {}

/-- A raw posting whose geolocation has a latitude but no longitude. -/
def demoOneCoordPosting : RawPosting :=
  { postingId := some "c1"
    postingLocation := some ⟨some "Some street 1", some ⟨some (-34), none⟩⟩ }

/-- A well-formed listing value. -/
def demoListingA : UnifiedListing :=
  { platform := "zonaprop", platform_listing_id := "42", listing_url := ""
    operation_type := "sale", property_type := "apartment", currency := "USD" }

/-- Same natural key as demoListingA, different field values. -/
def demoListingB : UnifiedListing :=
  { demoListingA with price := some 100, title := some "updated" }

/-- A different natural key. -/
def demoListingC : UnifiedListing :=
  { demoListingA with platform_listing_id := "43" }

/-- A listing value with exactly one coordinate set (never produced by the
pipeline; used to exercise the validator). -/
def demoMismatchedCoords : UnifiedListing :=
  { demoListingA with geo_lat := some 1 }

/-- Upstream stub whose pages 1 and 2 are mid pages and whose page 3 reports
lastPage true. -/
def stubLastAt3 : Nat → Option ApiResponse := fun p =>
  if p < 3 then some ⟨some ⟨some false⟩, some [demoPosting "a"]⟩
  else if p = 3 then some ⟨some ⟨some true⟩, some [demoPosting "b"]⟩
  else none

/-- Upstream stub with unboundedly many mid pages. -/
def stubManyPages : Nat → Option ApiResponse := fun _ =>
  some ⟨some ⟨some false⟩, some [demoPosting "a"]⟩

/-- Upstream stub with a single page that reports lastPage true. -/
def stubOnePage : Nat → Option ApiResponse := fun p =>
  if p = 1 then some ⟨some ⟨some true⟩, some [demoPosting "z"]⟩ else none

/-- Upstream stub for the orchestrator scenario: page 1 of the sale operation
(code "1") carries 5 items, page 1 of the rent operation (code "2") carries
3 items, both reporting lastPage true. -/
def stubScenario : Upstream := fun _prov opc _zc page =>
  if page = 1 && opc = "1" then
    some ⟨some ⟨some true⟩,
      some [demoPosting "s1", demoPosting "s2", demoPosting "s3",
            demoPosting "s4", demoPosting "s5"]⟩
  else if page = 1 && opc = "2" then
    some ⟨some ⟨some true⟩, some [demoPosting "r1", demoPosting "r2", demoPosting "r3"]⟩
  else none

/-- Upstream stub whose single page holds one valid item and one item with no
identity field. -/
def stubMissingId : Upstream := fun _ _ _ page =>
  if page = 1 then some ⟨some ⟨some true⟩, some [demoPosting "g", demoNoIdPosting]⟩
  else none

/-! ## Sink lemmas -/

lemma upsertByKey_absorb (s : Store) (k : String) (r r' : StoredRecord) :
    upsertByKey (upsertByKey s k r) k r' = upsertByKey s k r' := by
  induction s with
  | nil => simp [upsertByKey]
  | cons a t ih =>
    obtain ⟨k', r''⟩ := a
    by_cases h : k' = k
    · subst h; simp [upsertByKey]
    · simp [upsertByKey, h, ih]

lemma countKey_upsertByKey (s : Store) (k : String) (r : StoredRecord)
    (h : countKey k s ≤ 1) : countKey k (upsertByKey s k r) = 1 := by
  induction s with
  | nil => simp [upsertByKey, countKey]
  | cons a t ih =>
    obtain ⟨k', r''⟩ := a
    by_cases hk : k' = k
    · have h0 : countKey k t = 0 := by
        simp [countKey, List.countP_cons, hk] at h
        simpa [countKey] using h
      simp [upsertByKey, hk, countKey, List.countP_cons]
      simpa [countKey] using h0
    · have hb : (k' == k) = false := by simp [hk]
      simp [countKey, List.countP_cons, hb] at h
      simp [upsertByKey, hk, countKey, List.countP_cons, hb]
      exact ih (by simpa [countKey] using h)

lemma lookup_upsertByKey (s : Store) (k : String) (r : StoredRecord) :
    (upsertByKey s k r).lookup k = some r := by
  induction s with
  | nil => simp [upsertByKey, List.lookup]
  | cons a t ih =>
    obtain ⟨k', r''⟩ := a
    by_cases hk : k' = k
    · subst hk; simp [upsertByKey, List.lookup]
    · have hb : (k == k') = false := by simp [Ne.symm hk]
      simp [upsertByKey, hk, List.lookup, hb, ih]


/-- C1: upsert is idempotent and key-unique. On any key-unique store,
upserting a listing at time t and again at time t' leaves the same final
store as upserting it once at t' (the values of the single write, not a
duplicate); after one upsert the store holds exactly one row for the
listing's natural key; and for two listings with the same
(platform, platform_listing_id), upserting both — in either order, by
universality over L and L' — leaves exactly one row, whose field values are
those of the later write. -/
theorem sink_upsert_idempotent_key_unique :
    ∀ (s : Store), KeyUnique s → ∀ (L L' : UnifiedListing) (t t' : Nat),
      naturalKey L = naturalKey L' →
      ((save_listing_to_db false t' L ((save_listing_to_db false t L s).2)).2
          = (save_listing_to_db false t' L s).2)
      ∧ countKey (naturalKey L) ((save_listing_to_db false t L s).2) = 1
      ∧ countKey (naturalKey L')
          ((save_listing_to_db false t' L' ((save_listing_to_db false t L s).2)).2) = 1
      ∧ ((save_listing_to_db false t' L' ((save_listing_to_db false t L s).2)).2).lookup
          (naturalKey L') = some ⟨L', t'⟩ := by
  intro s hs L L' t t' hk
  simp only [save_listing_to_db, Bool.false_eq_true, if_false]
  refine ⟨upsertByKey_absorb s (naturalKey L) ⟨L, t⟩ ⟨L, t'⟩, ?_, ?_, ?_⟩
  · exact countKey_upsertByKey s (naturalKey L) ⟨L, t⟩ (hs _)
  · rw [hk, upsertByKey_absorb]
    exact countKey_upsertByKey s (naturalKey L') ⟨L', t'⟩ (hs _)
  · rw [hk, upsertByKey_absorb]
    exact lookup_upsertByKey s (naturalKey L') ⟨L', t'⟩

/-- Witness for C1 at the empty store and two concrete listings sharing a
natural key. -/
theorem sink_upsert_witness :
    countKey (naturalKey demoListingA) ((save_listing_to_db false 7 demoListingA []).2) = 1
    ∧ ((save_listing_to_db false 9 demoListingB
          ((save_listing_to_db false 7 demoListingA []).2)).2).lookup
        (naturalKey demoListingB) = some ⟨demoListingB, 9⟩ := by
  have h := sink_upsert_idempotent_key_unique []
    (fun k => by simp [countKey]) demoListingA demoListingB 7 9 rfl
  exact ⟨h.2.1, h.2.2.2⟩

/-! ## Normalizer and validator lemmas -/

lemma mkIfValid_some {L L' : UnifiedListing} (h : mkIfValid L = some L') :
    L' = L ∧ validListing L = true := by
  by_cases hv : validListing L
  · simp [mkIfValid, hv] at h
    exact ⟨h.symm, hv⟩
  · simp [mkIfValid, hv] at h

lemma normalizePosting_valid {tick : Nat} {p : RawPosting} {L : UnifiedListing}
    (h : normalizePosting tick p = some L) : validListing L = true := by
  simp only [normalizePosting] at h
  split at h
  · exact absurd h (by simp)
  · split at h
    · exact absurd h (by simp)
    · obtain ⟨rfl, hv⟩ := mkIfValid_some h
      exact hv

lemma validListing_coords {L : UnifiedListing} (h : validListing L = true) :
    L.geo_lat = none ↔ L.geo_lng = none := by
  simp only [validListing, Bool.and_eq_true] at h
  have hiso : L.geo_lat.isNone = L.geo_lng.isNone := by
    have := h.2
    simpa using this
  cases hl : L.geo_lat <;> cases hg : L.geo_lng <;> simp_all

/-- C2: the coordinate invariant. Every UnifiedListing the Zonaprop
normalizer produces has geo_lat absent iff geo_lng absent; the pre-construction
fix nulls both coordinates whenever exactly one was extracted; and the
pydantic validator rejects any listing value carrying exactly one
coordinate. -/
theorem coordinate_invariant_holds :
    (∀ (tick : Nat) (p : RawPosting) (L : UnifiedListing),
        normalizePosting tick p = some L → (L.geo_lat = none ↔ L.geo_lng = none))
    ∧ (∀ x : Rat, coordsFix (some x) none = (none, none))
    ∧ (∀ y : Rat, coordsFix none (some y) = (none, none))
    ∧ (∀ L : UnifiedListing, L.geo_lat.isNone ≠ L.geo_lng.isNone →
        validListing L = false) := by
  refine ⟨?_, ?_, ?_, ?_⟩
  · intro tick p L h
    exact validListing_coords (normalizePosting_valid h)
  · intro x; simp [coordsFix]
  · intro y; simp [coordsFix]
  · intro L h
    cases hv : validListing L
    · rfl
    · exact absurd ((validListing_coords hv)) (by
        cases hl : L.geo_lat <;> cases hg : L.geo_lng <;> simp_all)

/-- Witness for C2 at a posting carrying only a latitude and at a listing
value carrying only a latitude. -/
theorem coordinate_invariant_witness :
    (∃ L, normalizePosting 0 demoOneCoordPosting = some L
        ∧ (L.geo_lat = none ↔ L.geo_lng = none))
    ∧ validListing demoMismatchedCoords = false := by
  constructor
  · have hs : (normalizePosting 0 demoOneCoordPosting).isSome = true := by decide
    obtain ⟨L, hL⟩ := Option.isSome_iff_exists.mp hs
    exact ⟨L, hL, coordinate_invariant_holds.1 0 demoOneCoordPosting L hL⟩
  · exact coordinate_invariant_holds.2.2.2 demoMismatchedCoords (by decide)

/-! ## Pagination lemmas -/

lemma goodMid_elim {o : Option ApiResponse} (h : goodMid o = true) :
    ∃ ps, o = some ⟨some ⟨some false⟩, some ps⟩ ∧ ps.isEmpty = false := by
  cases o with
  | none => simp [goodMid] at h
  | some r =>
    obtain ⟨pgo, lpo⟩ := r
    cases lpo with
    | none => simp [goodMid] at h
    | some ps =>
      cases pgo with
      | none => simp [goodMid] at h
      | some pg =>
        obtain ⟨lp⟩ := pg
        simp [goodMid] at h
        refine ⟨ps, by rw [h.2], ?_⟩
        cases ps with
        | nil => exact absurd rfl h.1
        | cons a t => rfl

lemma lastGood_elim {o : Option ApiResponse} (h : lastGood o = true) :
    ∃ ps, o = some ⟨some ⟨some true⟩, some ps⟩ := by
  cases o with
  | none => simp [lastGood] at h
  | some r =>
    obtain ⟨pgo, lpo⟩ := r
    cases lpo with
    | none => simp [lastGood] at h
    | some ps =>
      cases pgo with
      | none => simp [lastGood] at h
      | some pg =>
        obtain ⟨lp⟩ := pg
        simp [lastGood] at h
        exact ⟨ps, by rw [h]⟩

lemma fetchLoop_stops_at_lastPage
    (pageFn : Nat → Option ApiResponse) (maxPages : Option Nat) (tick : Nat) :
    ∀ (m page pagesFetched fuel : Nat) (pinfo : Option Paging),
      m + 1 ≤ fuel →
      (∀ j, j < m → goodMid (pageFn (page + j)) = true) →
      lastGood (pageFn (page + m)) = true →
      (∀ j, j ≤ m → capReached maxPages (pagesFetched + j) = false) →
      ∃ ys, fetchLoop pageFn maxPages tick fuel page pagesFetched pinfo = some (ys, m + 1) := by
  intro m
  induction m with
  | zero =>
    intro page pf fuel pinfo hfuel hmid hlast hcap
    obtain ⟨f, rfl⟩ : ∃ f, fuel = f + 1 := ⟨fuel - 1, by omega⟩
    obtain ⟨ps, hpo⟩ := lastGood_elim (by simpa using hlast)
    have hc : capReached maxPages pf = false := by simpa using hcap 0 (by omega)
    by_cases hps : ps.isEmpty
    · exact ⟨[], by simp [fetchLoop, hc, hpo, hps]⟩
    · exact ⟨ps.filterMap (normalizePosting tick),
        by simp [fetchLoop, hc, hpo, hps, has_next_page, effLastPage]⟩
  | succ m ih =>
    intro page pf fuel pinfo hfuel hmid hlast hcap
    obtain ⟨f, rfl⟩ : ∃ f, fuel = f + 1 := ⟨fuel - 1, by omega⟩
    obtain ⟨ps, hpo, hps⟩ := goodMid_elim (by simpa using hmid 0 (by omega))
    have hc : capReached maxPages pf = false := by simpa using hcap 0 (by omega)
    have hmid' : ∀ j, j < m → goodMid (pageFn (page + 1 + j)) = true := by
      intro j hj
      have := hmid (j + 1) (by omega)
      rwa [show page + (j + 1) = page + 1 + j by omega] at this
    have hlast' : lastGood (pageFn (page + 1 + m)) = true := by
      rwa [show page + (m + 1) = page + 1 + m by omega] at hlast
    have hcap' : ∀ j, j ≤ m → capReached maxPages (pf + 1 + j) = false := by
      intro j hj
      have := hcap (j + 1) (by omega)
      rwa [show pf + (j + 1) = pf + 1 + j by omega] at this
    obtain ⟨ys', hys'⟩ := ih (page + 1) (pf + 1) f (some ⟨some false⟩)
      (by omega) hmid' hlast' hcap'
    exact ⟨ps.filterMap (normalizePosting tick) ++ ys',
      by simp [fetchLoop, hc, hpo, hps, has_next_page, effLastPage, hys']⟩

lemma fetchLoop_stops_at_cap
    (pageFn : Nat → Option ApiResponse) (maxPages : Option Nat) (tick : Nat) :
    ∀ (m page pagesFetched fuel : Nat) (pinfo : Option Paging),
      m + 1 ≤ fuel →
      (∀ j, j < m → goodMid (pageFn (page + j)) = true) →
      (∀ j, j < m → capReached maxPages (pagesFetched + j) = false) →
      capReached maxPages (pagesFetched + m) = true →
      ∃ ys, fetchLoop pageFn maxPages tick fuel page pagesFetched pinfo = some (ys, m) := by
  intro m
  induction m with
  | zero =>
    intro page pf fuel pinfo hfuel hmid hcap hstop
    obtain ⟨f, rfl⟩ : ∃ f, fuel = f + 1 := ⟨fuel - 1, by omega⟩
    have hc : capReached maxPages pf = true := by simpa using hstop
    exact ⟨[], by simp [fetchLoop, hc]⟩
  | succ m ih =>
    intro page pf fuel pinfo hfuel hmid hcap hstop
    obtain ⟨f, rfl⟩ : ∃ f, fuel = f + 1 := ⟨fuel - 1, by omega⟩
    obtain ⟨ps, hpo, hps⟩ := goodMid_elim (by simpa using hmid 0 (by omega))
    have hc : capReached maxPages pf = false := by simpa using hcap 0 (by omega)
    have hmid' : ∀ j, j < m → goodMid (pageFn (page + 1 + j)) = true := by
      intro j hj
      have := hmid (j + 1) (by omega)
      rwa [show page + (j + 1) = page + 1 + j by omega] at this
    have hcap' : ∀ j, j < m → capReached maxPages (pf + 1 + j) = false := by
      intro j hj
      have := hcap (j + 1) (by omega)
      rwa [show pf + (j + 1) = pf + 1 + j by omega] at this
    have hstop' : capReached maxPages (pf + 1 + m) = true := by
      rwa [show pf + (m + 1) = pf + 1 + m by omega] at hstop
    obtain ⟨ys', hys'⟩ := ih (page + 1) (pf + 1) f (some ⟨some false⟩)
      (by omega) hmid' hcap' hstop'
    exact ⟨ps.filterMap (normalizePosting tick) ++ ys',
      by simp [fetchLoop, hc, hpo, hps, has_next_page, effLastPage, hys']⟩

/-- C3: pagination termination. If the upstream's pages 1..N-1 are mid pages
(lastPage false, non-empty items) and page N reports lastPage true, then
fetch_listings issues exactly N page requests — for max_pages absent or any
cap larger than N, and for every sufficient fuel. -/
theorem pagination_stops_at_last_page :
    ∀ (pageFn : Nat → Option ApiResponse) (N : Nat) (maxPages : Option Nat) (tick fuel : Nat),
      1 ≤ N → N ≤ fuel →
      (maxPages = none ∨ ∃ k, maxPages = some k ∧ N < k) →
      (∀ j, j < N → 1 ≤ j → goodMid (pageFn j) = true) →
      lastGood (pageFn N) = true →
      ∃ ys, fetch_listings pageFn maxPages tick fuel = some (ys, N) := by
  intro pageFn N maxPages tick fuel hN hfuel hmp hmid hlast
  obtain ⟨m, rfl⟩ : ∃ m, N = m + 1 := ⟨N - 1, by omega⟩
  have hcap : ∀ j, j ≤ m → capReached maxPages (0 + j) = false := by
    intro j hj
    rcases hmp with h | ⟨k, rfl, hk⟩
    · subst h; rfl
    · have hk0 : k ≠ 0 := by omega
      simp [capReached, hk0]
      omega
  have hmid' : ∀ j, j < m → goodMid (pageFn (1 + j)) = true := by
    intro j hj
    have := hmid (j + 1) (by omega) (by omega)
    rwa [show j + 1 = 1 + j by omega] at this
  have hlast' : lastGood (pageFn (1 + m)) = true := by
    rwa [show m + 1 = 1 + m by omega] at hlast
  exact fetchLoop_stops_at_lastPage pageFn maxPages tick m 1 0 fuel none
    hfuel hmid' hlast' hcap

/-- Witness for C3: a stub reporting lastPage on its third page is fetched
exactly 3 times with max_pages absent. -/
theorem pagination_stops_witness :
    ∃ ys, fetch_listings stubLastAt3 none 0 5 = some (ys, 3) :=
  pagination_stops_at_last_page stubLastAt3 3 none 0 5 (by decide) (by decide)
    (Or.inl rfl) (by decide) (by decide)

/-- C4: the page cap is respected and checked before each request. With
max_pages = k ≥ 1 and an upstream offering more than k mid pages, the loop
issues exactly k page requests: the guard runs at the top of each iteration,
before the request, so no k+1-th request is ever issued. -/
theorem page_cap_respected :
    ∀ (pageFn : Nat → Option ApiResponse) (k tick fuel : Nat),
      1 ≤ k → k + 1 ≤ fuel →
      (∀ j, j ≤ k → 1 ≤ j → goodMid (pageFn j) = true) →
      ∃ ys, fetch_listings pageFn (some k) tick fuel = some (ys, k) := by
  intro pageFn k tick fuel hk hfuel hmid
  have hmid' : ∀ j, j < k → goodMid (pageFn (1 + j)) = true := by
    intro j hj
    have := hmid (j + 1) (by omega) (by omega)
    rwa [show j + 1 = 1 + j by omega] at this
  have hk0 : k ≠ 0 := by omega
  have hcap : ∀ j, j < k → capReached (some k) (0 + j) = false := by
    intro j hj
    simp [capReached, hk0]
    omega
  have hstop : capReached (some k) (0 + k) = true := by
    simp [capReached, hk0]
  exact fetchLoop_stops_at_cap pageFn (some k) tick k 1 0 fuel none
    hfuel hmid' hcap hstop

/-- Witness for C4: an unbounded stub is fetched exactly 4 times under
max_pages = 4. -/
theorem page_cap_witness :
    ∃ ys, fetch_listings stubManyPages (some 4) 0 6 = some (ys, 4) :=
  page_cap_respected stubManyPages 4 0 6 (by decide) (by decide) (by decide)

lemma fetchLoop_maxPages_zero (pageFn : Nat → Option ApiResponse) (tick : Nat) :
    ∀ (fuel page pf : Nat) (pinfo : Option Paging),
      fetchLoop pageFn (some 0) tick fuel page pf pinfo
        = fetchLoop pageFn none tick fuel page pf pinfo := by
  intro fuel
  induction fuel with
  | zero => intro page pf pinfo; rfl
  | succ f ih =>
    intro page pf pinfo
    simp [fetchLoop, capReached, ih]

/-- C10: max_pages = 0 is falsy in the guard `if max_pages and ...`, so the
loop behaves exactly as with max_pages = None (unlimited); in particular it
does not fetch zero pages — on a one-page stub it still issues one request. -/
theorem max_pages_zero_unlimited :
    (∀ (pageFn : Nat → Option ApiResponse) (tick fuel page pf : Nat) (pinfo : Option Paging),
        fetchLoop pageFn (some 0) tick fuel page pf pinfo
          = fetchLoop pageFn none tick fuel page pf pinfo)
    ∧ (fetch_listings stubOnePage (some 0) 0 5).map Prod.snd = some 1 := by
  refine ⟨fun pageFn tick fuel page pf pinfo =>
    fetchLoop_maxPages_zero pageFn tick fuel page pf pinfo, ?_⟩
  decide

/-! ## Ingestion statistics lemmas -/

lemma normalizePosting_noId {tick : Nat} {p : RawPosting}
    (h : pyOrString p.postingId (pyOrString p.id "") = "") :
    normalizePosting tick p = none := by
  simp [normalizePosting, h]
  exact fun hc => absurd hc (by decide)

lemma processListings_stats (failOn : Nat → Bool) (now : Nat) (sv : Bool) :
    ∀ (ls : List UnifiedListing) (count : Nat) (store : Store) (stats : RunStats),
      (processListings failOn now sv ls count store stats).2.2 = stats := by
  intro ls
  induction ls with
  | nil => intro count store stats; rfl
  | cons l rest ih => intro count store stats; simp [processListings, ih]

lemma processListings_count (failOn : Nat → Bool) (now : Nat) (sv : Bool) :
    ∀ (ls : List UnifiedListing) (count : Nat) (store : Store) (stats : RunStats),
      (processListings failOn now sv ls count store stats).1 = count + ls.length := by
  intro ls
  induction ls with
  | nil => intro count store stats; simp [processListings]
  | cons l rest ih =>
    intro count store stats
    simp [processListings, ih]
    omega

lemma scrape_zone_operation_errors (upstream : Upstream) (failOn : Nat → Bool)
    (now tick fuel : Nat) (z o : String) (mp : Option Nat) (sv : Bool)
    (store : Store) (stats : RunStats) (r : Nat × Store × RunStats)
    (h : scrape_zone_operation upstream failOn now tick fuel z o mp sv store stats = some r) :
    r.2.2.errors = stats.errors := by
  simp only [scrape_zone_operation] at h
  split at h
  · split at h
    · exact absurd h (by simp)
    · simp only [Option.some.injEq] at h
      subst h
      simp [processListings_stats]
  · simp only [Option.some.injEq] at h
    subst h
    rfl

/-- C5, amended: a raw posting with no non-empty identity candidate
(postingId, id) is rejected — the normalizer yields no UnifiedListing for it
and the page's yielded listings exclude it — but, contrary to the claim, the
run's error counter is NOT incremented: the item is skipped silently
(`continue` before any counting), and scrape_zone_operation leaves
stats errors unchanged for every successfully drained combination. -/
theorem missing_identity_silently_skipped :
    (∀ (tick : Nat) (p : RawPosting),
        pyOrString p.postingId (pyOrString p.id "") = "" →
        normalizePosting tick p = none)
    ∧ (∀ (tick : Nat) (p : RawPosting) (ps1 ps2 : List RawPosting),
        pyOrString p.postingId (pyOrString p.id "") = "" →
        (ps1 ++ p :: ps2).filterMap (normalizePosting tick)
          = (ps1 ++ ps2).filterMap (normalizePosting tick))
    ∧ (∀ (upstream : Upstream) (failOn : Nat → Bool) (now tick fuel : Nat)
        (z o : String) (mp : Option Nat) (sv : Bool) (store : Store)
        (stats : RunStats) (r : Nat × Store × RunStats),
        scrape_zone_operation upstream failOn now tick fuel z o mp sv store stats = some r →
        r.2.2.errors = stats.errors) := by
  refine ⟨?_, ?_, ?_⟩
  · intro tick p h
    exact normalizePosting_noId h
  · intro tick p ps1 ps2 h
    simp [List.filterMap_append, List.filterMap_cons, normalizePosting_noId h]
  · intro upstream failOn now tick fuel z o mp sv store stats r h
    exact scrape_zone_operation_errors upstream failOn now tick fuel z o mp sv store stats r h

/-- Witness for C5 at a posting with no identity fields. -/
theorem missing_identity_witness :
    normalizePosting 0 demoNoIdPosting = none
    ∧ ([] ++ demoNoIdPosting :: [demoPosting "g"]).filterMap (normalizePosting 0)
        = ([] ++ [demoPosting "g"]).filterMap (normalizePosting 0) :=
  ⟨missing_identity_silently_skipped.1 0 demoNoIdPosting rfl,
   missing_identity_silently_skipped.2.1 0 demoNoIdPosting [] [demoPosting "g"] rfl⟩

/-- Counterexample to C5 as stated: one page holding one valid item and one
identity-less item yields listings_count 1 (the bad item is excluded) but the
error counter stays 0, not the claimed 1. -/
theorem missing_identity_error_not_counted :
    (scrape_zone_operation stubMissingId (fun _ => false) 0 0 5
        "capital_federal" "sale" (some 1) true [] initStats).map
      (fun r => (r.1, r.2.2.errors)) = some (1, 0) := by
  decide

/-- C6, amended: a storage-layer exception inside save_listing_to_db is
caught — the session is rolled back, leaving the store unchanged, and the
function returns False instead of raising — and processing continues with
the next item (every listing of the combination is still counted), but,
contrary to the claim, the failure is NOT counted as an ingestion error: the
per-listing loop leaves the stats dict, including the errors field, entirely
unchanged, because the save's False result is ignored and the surrounding
except clause that would increment errors can never fire. -/
theorem persistence_failure_contained_not_counted :
    (∀ (now : Nat) (l : UnifiedListing) (s : Store),
        save_listing_to_db true now l s = (false, s))
    ∧ (∀ (failOn : Nat → Bool) (now : Nat) (sv : Bool) (ls : List UnifiedListing)
        (count : Nat) (store : Store) (stats : RunStats),
        (processListings failOn now sv ls count store stats).1 = count + ls.length
        ∧ (processListings failOn now sv ls count store stats).2.2 = stats) := by
  refine ⟨fun now l s => rfl, fun failOn now sv ls count store stats => ?_⟩
  exact ⟨processListings_count failOn now sv ls count store stats,
    processListings_stats failOn now sv ls count store stats⟩

/-- Counterexample to C6 as stated: the first of two writes fails; both items
are still processed (count 2) and the second is stored, but the run
statistics remain initStats — errors is 0, not the claimed 1. -/
theorem persistence_failure_error_not_counted :
    processListings (fun i => i == 0) 7 true [demoListingA, demoListingC] 0 [] initStats
      = (2, [(naturalKey demoListingC, ⟨demoListingC, 7⟩)], initStats) := by
  decide

/-! ## Feature extraction lemmas -/

lemma pyFloatDigitsDot_nonneg {s : String} {q : Rat}
    (h : pyFloatDigitsDot s = some q) : 0 ≤ q := by
  simp only [pyFloatDigitsDot] at h
  split at h
  · split at h
    · simp only [Option.some.injEq] at h
      subst h
      positivity
    · exact absurd h (by simp)
  · split at h
    · simp only [Option.some.injEq] at h
      subst h
      positivity
    · exact absurd h (by simp)
  · exact absurd h (by simp)

lemma get_feature_value_ok_nonneg {mf : List (String × Feat)} {key : String} {q : Rat}
    (h : get_feature_value mf key = Except.ok (some q)) : 0 ≤ q := by
  simp only [get_feature_value] at h
  split at h
  · exact absurd h (by simp)
  · split at h
    · split at h
      · simp only [Except.ok.injEq, Option.some.injEq] at h
        subst h
        exact pyFloatDigitsDot_nonneg (by assumption)
      · exact absurd h (by simp)
    · exact absurd h (by simp)

lemma get_feature_value_single (k s : String) :
    get_feature_value [(k, ⟨some s⟩)] k
      = (if !s.isEmpty && pyIsDigit (pyReplaceDot s) then
           match pyFloatDigitsDot s with
           | some q => Except.ok (some q)
           | none => Except.error ()
         else Except.ok none) := by
  simp [get_feature_value, List.lookup]

lemma get_feature_value_other {k k' : String} (x : Feat) (h : (k == k') = false) :
    get_feature_value [(k', x)] k = Except.ok none := by
  simp [get_feature_value, List.lookup, h]

/-- C7, amended: the normalizer looks each of surface_total, surface_covered,
rooms, bedrooms, bathrooms up by its Zonaprop feature code (CFT100, CFT101,
CFT1, CFT2, CFT3) in the mainFeatures map. A raw value is accepted iff it is
a non-empty string whose dot-free form passes the digit check and whose
float() parse succeeds (which forces the value to be non-negative); but —
contrary to the claim's iff — rooms, bedrooms and bathrooms additionally
treat a parsed 0 as absent (Python zero-falsiness), and are floored via
int(). -/
theorem feature_extraction_characterized :
    (∀ (mf : List (String × Feat)) (key : String) (q : Rat),
        get_feature_value mf key = Except.ok (some q) → 0 ≤ q)
    ∧ (∀ (s : String) (q : Rat),
        get_feature_value [("CFT1", ⟨some s⟩)] "CFT1" = Except.ok (some q)
          ↔ ((!s.isEmpty && pyIsDigit (pyReplaceDot s)) = true
              ∧ pyFloatDigitsDot s = some q))
    ∧ pyIntIfTruthy (some 0) = none
    ∧ (∀ q : Rat, q ≠ 0 → pyIntIfTruthy (some q) = some q.floor) := by
  refine ⟨?_, ?_, ?_, ?_⟩
  · intro mf key q h
    exact get_feature_value_ok_nonneg h
  · intro s q
    rw [get_feature_value_single]
    by_cases hg : (!s.isEmpty && pyIsDigit (pyReplaceDot s)) = true
    · rw [if_pos hg]
      cases hf : pyFloatDigitsDot s with
      | none => simp [hg, hf]
      | some q' => simp [hg, hf, eq_comm]
    · rw [if_neg hg]
      simp [hg]
  · rfl
  · intro q hq
    simp [pyIntIfTruthy, hq]

/-- Witness for C7: the value 12.5 at code CFT1 is accepted as 25/2, and a
non-zero count is floored. -/
theorem feature_extraction_witness :
    get_feature_value [("CFT1", ⟨some "12.5"⟩)] "CFT1" = Except.ok (some (25 / 2 : Rat))
    ∧ pyIntIfTruthy (some (25 / 2 : Rat)) = some ((25 / 2 : Rat)).floor := by
  have hf : pyFloatDigitsDot "12.5" = some (25 / 2 : Rat) := by
    have hsplit : splitDots "12.5".toList = [['1', '2'], ['5']] := rfl
    have hd1 : digitsVal ['1', '2'] = 12 := rfl
    have hd2 : digitsVal ['5'] = 5 := rfl
    have hguard : ((['1', '2'] ++ ['5']).all Char.isDigit
        && !(['1', '2'].isEmpty && ['5'].isEmpty)) = true := rfl
    simp only [pyFloatDigitsDot, hsplit]
    rw [if_pos hguard]
    simp only [hd1, hd2, List.length_cons, List.length_nil]
    norm_num
  constructor
  · exact (feature_extraction_characterized.2.1 "12.5" (25 / 2)).mpr ⟨rfl, hf⟩
  · exact feature_extraction_characterized.2.2.2 (25 / 2) (by norm_num)

/-- Counterexample to C7 as stated: the raw value "0" parses as the
non-negative number 0 (float() accepts it), yet the rooms field — and every
count field — comes out absent, because 0 is falsy in `int(x) if x else
None`; the claimed acceptance iff fails (surface fields, by contrast, do
accept 0). -/
theorem feature_zero_value_rejected :
    featureFields [("CFT1", ⟨some "0"⟩)] = Except.ok (none, none, none, none, none)
    ∧ pyFloatDigitsDot "0" = some 0
    ∧ featureFields [("CFT100", ⟨some "0"⟩)]
        = Except.ok (some 0, none, none, none, none) := by
  have hf0 : pyFloatDigitsDot "0" = some 0 := by
    have hsplit : splitDots "0".toList = [['0']] := rfl
    have hd : digitsVal ['0'] = 0 := rfl
    have hguard : (['0'].all Char.isDigit && !(['0'].isEmpty)) = true := rfl
    simp only [pyFloatDigitsDot, hsplit]
    rw [if_pos hguard]
    simp only [hd]
    norm_num
  have hg0 : (!"0".isEmpty && pyIsDigit (pyReplaceDot "0")) = true := by decide
  have hzero : ∀ k : String, get_feature_value [(k, ⟨some "0"⟩)] k = Except.ok (some 0) := by
    intro k
    rw [get_feature_value_single k "0", if_pos hg0, hf0]
  refine ⟨?_, hf0, ?_⟩
  · simp only [featureFields, get_feature_value_other _ (by decide : (("CFT100" : String) == "CFT1") = false),
      get_feature_value_other _ (by decide : (("CFT101" : String) == "CFT1") = false),
      get_feature_value_other _ (by decide : (("CFT2" : String) == "CFT1") = false),
      get_feature_value_other _ (by decide : (("CFT3" : String) == "CFT1") = false),
      hzero "CFT1"]
    rfl
  · simp only [featureFields, get_feature_value_other _ (by decide : (("CFT101" : String) == "CFT100") = false),
      get_feature_value_other _ (by decide : (("CFT1" : String) == "CFT100") = false),
      get_feature_value_other _ (by decide : (("CFT2" : String) == "CFT100") = false),
      get_feature_value_other _ (by decide : (("CFT3" : String) == "CFT100") = false),
      hzero "CFT100"]
    rfl

/-- C8: the orchestrator aggregation scenario. Running
scrape_all_zones_operations over zones capital_federal and operations
sale and rent with max_pages_per_zone 1 against the stub upstream (5 sale
items and 3 rent items on page 1, lastPage true) yields total_listings 8,
total_operations_processed 2 and errors 0. -/
theorem orchestrator_scenario_stats :
    (scrape_all_zones_operations stubScenario (fun _ => false) 0 0 10
        ["capital_federal"] ["sale", "rent"] (some 1) true [] initStats).map
      (fun r => (r.2.total_listings, r.2.total_operations_processed, r.2.errors))
      = some (8, 2, 0) := by
  decide

/-- C9: MercadoLibreConnector.fetch_listings references the unbound name
limit in its first statement, so requesting the first element of the
generator raises NameError before anything can be yielded. -/
theorem mercadolibre_raises_name_error :
    mercadolibreFetchFirstStatement = Except.error (PyExc.nameError "limit") := by
  rfl
